import Mathlib

/-!
Shallow embedding of the VigilHSM adapters.

The embedding follows the TypeScript sources:

* `VigilHSMPKCS11` (src/src/IVigilHSM.ts): the local-module (PKCS#11) adapter.
  The graphene-pk11 driver is modelled by an explicit slot list, an object
  store for the token objects reachable through the open session, and an
  oracle supplying the cryptographic primitives (key generation material,
  raw signing, verification verdicts).

* `VigilHSMVault` (src/src/IVigilHSM.ts, lines 461-593, matching
  src/src/VigilHSMVault.ts up to the algorithm-mapping switch): the
  remote-transit (HashiCorp Vault Transit) adapter.  The remote service is an
  external collaborator of the repository; its endpoint semantics
  (health check, key write/read with versioned public keys, sign, verify,
  deletion-allowed config, delete) are modelled from the interface the spec
  describes for it, with a `downPaths` set injecting transport failures.

Machine-level byte strings are modelled as Lean `String`s; `Buffer`
hex and base64 encodings are implemented over the code points of those
strings (faithful for the ASCII data the adapters produce).
-/

namespace Vigil

deriving instance DecidableEq for Except

/-- Error values thrown by the adapters.  JavaScript errors carry only a
message; the `notFound` constructor tags the errors whose message reports a
missing slot, token or key, mirroring the not-found conditions of the code. -/
inductive Err where
  | notFound (msg : String)
  | other (msg : String)
deriving DecidableEq

/-- The message carried by an error, as `error.message` in the source. -/
def Err.msg : Err → String
  | .notFound m => m
  | .other m => m

/-- Lower-case hexadecimal digit, as produced by Buffer.toString with hex. -/
def hexDigit (n : Nat) : Char :=
  if n < 10 then Char.ofNat (48 + n) else Char.ofNat (87 + n)

/-- Two hexadecimal digits of one byte. -/
def hexByte (n : Nat) : String :=
  String.mk [hexDigit (n / 16 % 16), hexDigit (n % 16)]

/-- Hex encoding of a byte string, as Buffer.from(s).toString with hex. -/
def hexEncodeString (s : String) : String :=
  String.join (s.data.map (fun c => hexByte c.toNat))

/-- The standard base64 alphabet. -/
def base64Alphabet : List Char :=
  "ABCDEFGHIJKLMNOPQRSTUVWXYZabcdefghijklmnopqrstuvwxyz0123456789+/".data

/-- Character of one 6-bit group. -/
def base64Char (n : Nat) : Char := base64Alphabet.getD n 'A'

/-- Base64 encoding of a byte list, three bytes at a time, with padding. -/
def base64Chunks : List Nat → String
  | [] => ""
  | [b] => String.mk [base64Char (b / 4), base64Char (b % 4 * 16), '=', '=']
  | [b, c] =>
      String.mk [base64Char (b / 4), base64Char (b % 4 * 16 + c / 16),
        base64Char (c % 16 * 4), '=']
  | b :: c :: d :: rest =>
      String.mk [base64Char (b / 4), base64Char (b % 4 * 16 + c / 16),
        base64Char (c % 16 * 4 + d / 64), base64Char (d % 64)] ++ base64Chunks rest

/-- Base64 encoding of a string, as Buffer.from(payload).toString with base64. -/
def base64Encode (s : String) : String := base64Chunks (s.data.map Char.toNat)

/-! ## Local-module (PKCS#11) adapter -/

/-- Configuration of the PKCS#11 adapter (interface PKCS11Config).  The
library path plays no role in the model. -/
structure PKCS11Config where
  tokenLabel : Option String
  slot : Option Nat
  pin : String
deriving DecidableEq

/-- One PKCS#11 slot as seen through the graphene driver: whether a token is
present, the raw token label (possibly space-padded), and the token PIN that
a login must match. -/
structure GSlot where
  tokenPresent : Bool
  tokenLabel : String
  pin : String
deriving DecidableEq

/-- Resolution of the two slot-selection fallbacks of initialize
(src/src/IVigilHSM.ts lines 99-110): an explicit numeric index into the
present-token slot list, else the first present-token slot. -/
def resolveSlotNoLabel (slotIdx : Option Nat) (slots : List GSlot) : Except Err GSlot :=
  match slotIdx with
  | some i =>
    match slots[i]? with
    | some s => .ok s
    | none => .error (.notFound ("Slot " ++ toString i ++ " not found"))
  | none =>
    match slots with
    | [] => .error (.notFound "No PKCS#11 slots available")
    | s :: _ => .ok s

/-- Slot resolution of VigilHSMPKCS11.initialize (src/src/IVigilHSM.ts lines
84-110).  getSlots(true) keeps only slots with present tokens; a configured
token label (truthy in JavaScript, hence non-empty) selects the first slot
whose trimmed token label matches; otherwise the numeric index or the first
available slot is used. -/
def resolveSlot (cfg : PKCS11Config) (allSlots : List GSlot) : Except Err GSlot :=
  let slots := allSlots.filter (fun s => s.tokenPresent)
  match cfg.tokenLabel with
  | some lbl =>
    if lbl != "" then
      match slots.find? (fun s => s.tokenLabel.trim == lbl) with
      | some s => .ok s
      | none => .error (.notFound ("Token with label " ++ lbl ++ " not found"))
    else resolveSlotNoLabel cfg.slot slots
  | none => resolveSlotNoLabel cfg.slot slots

/-- Observable driver interactions of the PKCS#11 adapter.  Teardown
attempts record whether the suppressed step failed. -/
inductive PEvent where
  | moduleLoad
  | moduleInit
  | sessionOpen
  | login
  | logoutAttempt (failed : Bool)
  | sessionCloseAttempt (failed : Bool)
  | finalizeAttempt (failed : Bool)
  | keyGen (mechanism : String)
  | signOnce (mechanism : String) (keyId : String)
  | verifyOnce (mechanism : String) (keyId : String)
  | destroy (priv : Bool) (label : String) (id : String)
deriving DecidableEq

/-- The mutable fields of VigilHSMPKCS11: the initialized flag, the session
(holding the slot it was opened on) and the loaded module handle. -/
structure P11State where
  initialized : Bool
  session : Option GSlot
  moduleLoaded : Bool
deriving DecidableEq

/-- isInitialized of VigilHSMPKCS11. -/
def pIsInitialized (st : P11State) : Bool := st.initialized

/-- Result of a lifecycle call on the PKCS#11 adapter. -/
structure InitOut where
  result : Except Err Unit
  state : P11State
  trace : List PEvent
deriving DecidableEq

/-- VigilHSMPKCS11.initialize (src/src/IVigilHSM.ts lines 71-128): a no-op
when already initialized, otherwise module load and initialize, slot
resolution, session open and login.  On a slot-resolution failure the module
handle stays assigned; on a login failure the session handle additionally
stays assigned; the initialized flag is set only when every step succeeds. -/
def pInitialize (cfg : PKCS11Config) (allSlots : List GSlot) (st : P11State) : InitOut :=
  if st.initialized then { result := .ok (), state := st, trace := [] }
  else
    let st1 : P11State := { st with moduleLoaded := true }
    match resolveSlot cfg allSlots with
    | .error e => { result := .error e, state := st1, trace := [.moduleLoad, .moduleInit] }
    | .ok s =>
      let st2 : P11State := { st1 with session := some s }
      if cfg.pin == s.pin then
        { result := .ok (), state := { st2 with initialized := true },
          trace := [.moduleLoad, .moduleInit, .sessionOpen, .login] }
      else
        { result := .error (.other "CKR_PIN_INCORRECT"), state := st2,
          trace := [.moduleLoad, .moduleInit, .sessionOpen, .login] }

/-- Which teardown steps of close fail; every combination is suppressed. -/
structure TeardownFaults where
  logoutFails : Bool
  closeFails : Bool
  finalizeFails : Bool
deriving DecidableEq

/-- VigilHSMPKCS11.close (src/src/IVigilHSM.ts lines 405-430): when a session
handle is present, logout and session close are attempted with failures
ignored and the handle is cleared; when a module handle is present, finalize
is attempted with failures ignored and the handle is cleared; the initialized
flag is cleared unconditionally. -/
def pClose (fl : TeardownFaults) (st : P11State) : InitOut :=
  let sessionTrace := if st.session.isSome
    then [PEvent.logoutAttempt fl.logoutFails, PEvent.sessionCloseAttempt fl.closeFails]
    else []
  let moduleTrace := if st.moduleLoaded
    then [PEvent.finalizeAttempt fl.finalizeFails]
    else []
  { result := .ok ()
  , state := { initialized := false, session := none, moduleLoaded := false }
  , trace := sessionTrace ++ moduleTrace }

/-- One PKCS#11 token object: object class (private or public key), label,
id, key type and, for public keys, the key material (RSA modulus bytes). -/
structure PObject where
  isPrivate : Bool
  label : String
  id : String
  keyType : String
  material : String
deriving DecidableEq

/-- The token objects reachable through the open session. -/
abbrev ObjectStore := List PObject

/-- session.find on class and label: the matching objects in store order. -/
def findObjects (store : ObjectStore) (priv : Bool) (lbl : String) : List PObject :=
  store.filter (fun ob => ob.isPrivate == priv && ob.label == lbl)

/-- VigilHSMPKCS11.findPrivateKey (src/src/IVigilHSM.ts lines 252-265):
first private-key object with the label, error when none exists. -/
def findPrivateKey (store : ObjectStore) (lbl : String) : Except Err PObject :=
  match findObjects store true lbl with
  | [] => .error (.notFound ("Private key " ++ lbl ++ " not found"))
  | k :: _ => .ok k

/-- VigilHSMPKCS11.findPublicKey (src/src/IVigilHSM.ts lines 270-283). -/
def findPublicKey (store : ObjectStore) (lbl : String) : Except Err PObject :=
  match findObjects store false lbl with
  | [] => .error (.notFound ("Public key " ++ lbl ++ " not found"))
  | k :: _ => .ok k

/-- Cryptographic primitives of the PKCS#11 module: raw signature bytes from
mechanism, key id and payload; the verification verdict (error when the
driver throws, for instance on malformed signature bytes, as composed with
the hex decoding of the signature argument); the modulus material of a
freshly generated RSA key from label and size. -/
structure P11Oracle where
  signBytes : String → String → String → String
  verifyOnce : String → String → String → String → Except Unit Bool
  rsaModulus : String → Nat → String

/-- Result of an operation on the PKCS#11 adapter with an open session:
the value or thrown error, the resulting token objects, and the driver
interactions performed. -/
structure POut (α : Type) where
  result : Except Err α
  store : ObjectStore
  trace : List PEvent
deriving DecidableEq

/-- The public key and synthetic id returned by generateKeyPair. -/
structure KeyGenResult where
  publicKey : String
  keyId : String
deriving DecidableEq

/-- VigilHSMPKCS11.generateRSAKeyPair (src/src/IVigilHSM.ts lines 171-214)
on an initialized adapter: the key id is the hex encoding of the decimal
Date.now() string, the RSA mechanism generates a token-persistent public and
private object under the label, and the hex-encoded modulus is returned. -/
def generateRSAKeyPair (o : P11Oracle) (now : Nat) (store : ObjectStore)
    (keyLabel : String) (keySize : Nat) : POut KeyGenResult :=
  let keyId := hexEncodeString (toString now)
  let modulus := o.rsaModulus keyLabel keySize
  let pubObj : PObject :=
    { isPrivate := false, label := keyLabel, id := keyId, keyType := "RSA", material := modulus }
  let privObj : PObject :=
    { isPrivate := true, label := keyLabel, id := keyId, keyType := "RSA", material := "" }
  { result := .ok { publicKey := hexEncodeString modulus, keyId := keyId }
  , store := store ++ [pubObj, privObj]
  , trace := [.keyGen "RSA"] }

/-- VigilHSMPKCS11.generateKeyPair (src/src/IVigilHSM.ts lines 164-166): the
method declares no algorithm parameter, so the algorithm supplied through
the IVigilHSM interface is discarded and generateRSAKeyPair runs with the
default 2048-bit size. -/
def pGenerateKeyPair (o : P11Oracle) (now : Nat) (store : ObjectStore)
    (keyLabel : String) (_algorithm : String) : POut KeyGenResult :=
  generateRSAKeyPair o now store keyLabel 2048

/-- VigilHSMPKCS11.signRSA (src/src/IVigilHSM.ts lines 295-305) on an
initialized adapter: find the private key (throwing when absent), sign once
with mechanism SHA256_RSA_PKCS, return the hex-encoded signature. -/
def pSignRSA (o : P11Oracle) (store : ObjectStore) (keyLabel payload : String) : POut String :=
  match findPrivateKey store keyLabel with
  | .error e => { result := .error e, store := store, trace := [] }
  | .ok k =>
    let sig := o.signBytes "SHA256_RSA_PKCS" k.id payload
    { result := .ok (hexEncodeString sig), store := store
    , trace := [.signOnce "SHA256_RSA_PKCS" k.id] }

/-- VigilHSMPKCS11.sign (src/src/IVigilHSM.ts lines 288-290): no algorithm
parameter is declared, the interface-supplied algorithm is discarded. -/
def pSign (o : P11Oracle) (store : ObjectStore)
    (keyLabel payload : String) (_algorithm : String) : POut String :=
  pSignRSA o store keyLabel payload

/-- VigilHSMPKCS11.verifyRSA (src/src/IVigilHSM.ts lines 317-333) on an
initialized adapter: the public key is looked up first and its absence
throws; any failure of the verification call itself is caught and collapsed
to a false verdict. -/
def pVerifyRSA (o : P11Oracle) (store : ObjectStore)
    (keyLabel payload signature : String) : POut Bool :=
  match findPublicKey store keyLabel with
  | .error e => { result := .error e, store := store, trace := [] }
  | .ok k =>
    match o.verifyOnce "SHA256_RSA_PKCS" k.id payload signature with
    | .ok b => { result := .ok b, store := store, trace := [.verifyOnce "SHA256_RSA_PKCS" k.id] }
    | .error _ => { result := .ok false, store := store, trace := [.verifyOnce "SHA256_RSA_PKCS" k.id] }

/-- VigilHSMPKCS11.verify (src/src/IVigilHSM.ts lines 310-312): no algorithm
parameter is declared, the interface-supplied algorithm is discarded. -/
def pVerify (o : P11Oracle) (store : ObjectStore)
    (keyLabel payload signature : String) (_algorithm : String) : POut Bool :=
  pVerifyRSA o store keyLabel payload signature

/-- Destruction pass of deleteKeyPair: every found object of the class and
label is destroyed. -/
def destroyObjects (store : ObjectStore) (priv : Bool) (lbl : String) : ObjectStore :=
  store.filter (fun ob => !(ob.isPrivate == priv && ob.label == lbl))

/-- VigilHSMPKCS11.deleteKeyPair (src/src/IVigilHSM.ts lines 338-360) on an
initialized adapter: all private-key objects with the label are found and
destroyed, then all public-key objects with the label; no step checks that
anything matched and nothing is thrown. -/
def pDeleteKeyPair (store : ObjectStore) (keyLabel : String) : POut Unit :=
  let privs := findObjects store true keyLabel
  let store1 := destroyObjects store true keyLabel
  let pubs := findObjects store1 false keyLabel
  let store2 := destroyObjects store1 false keyLabel
  { result := .ok ()
  , store := store2
  , trace := (privs ++ pubs).map (fun ob => PEvent.destroy ob.isPrivate ob.label ob.id) }

/-! ## Remote-transit (Vault) adapter -/

/-- One named key of the transit engine: its type, exportable and
deletion-allowed flags, and the public material of each numbered version. -/
structure VaultKey where
  ktype : String
  exportable : Bool
  deletionAllowed : Bool
  versions : List (Nat × String)
deriving DecidableEq

/-- State of the remote transit service: liveness, the named keys, and the
request paths currently failing at the transport level. -/
structure VaultServer where
  healthy : Bool
  keys : List (String × VaultKey)
  downPaths : List String
deriving DecidableEq

/-- The named key stored under a label, when present. -/
def lookupKey (sv : VaultServer) (lbl : String) : Option VaultKey :=
  (sv.keys.find? (fun p => p.1 == lbl)).map Prod.snd

/-- Removal of a named key. -/
def removeKey (sv : VaultServer) (lbl : String) : VaultServer :=
  { sv with keys := sv.keys.filter (fun p => !(p.1 == lbl)) }

/-- Store a named key, replacing an existing entry of the same label. -/
def setKey (sv : VaultServer) (lbl : String) (k : VaultKey) : VaultServer :=
  if (sv.keys.find? (fun p => p.1 == lbl)).isSome then
    { sv with keys := sv.keys.map (fun p => if p.1 == lbl then (lbl, k) else p) }
  else { sv with keys := sv.keys ++ [(lbl, k)] }

/-- Whether a request path currently fails at the transport level. -/
def pathDown (sv : VaultServer) (path : String) : Bool := sv.downPaths.contains path

/-- Path of the key write/read/delete endpoint for a label. -/
def keysPath (lbl : String) : String := "transit/keys/" ++ lbl

/-- Path of the deletion-allowed configuration endpoint for a label. -/
def configPath (lbl : String) : String := "transit/keys/" ++ lbl ++ "/config"

/-- Path of the sign endpoint for a label. -/
def signPath (lbl : String) : String := "transit/sign/" ++ lbl

/-- Path of the verify endpoint for a label. -/
def verifyPath (lbl : String) : String := "transit/verify/" ++ lbl

/-- Remote-side primitives of the transit engine: public material of a newly
created key, the signature string for a key and base64 input, and the verify
verdict (an error when the service rejects the request, for instance on a
malformed signature string). -/
structure VaultOracle where
  genMaterial : String → String → String
  transitSign : VaultKey → String → String
  transitVerify : VaultKey → String → String → Except Err Bool

/-- Transit key-write endpoint (spec section 6, external service): creates
the named key with version 1 material when absent; an existing key of the
same type is left unchanged, an incompatible type is rejected. -/
def svWriteKeys (o : VaultOracle) (sv : VaultServer) (lbl vtype : String) :
    Except Err VaultServer :=
  if pathDown sv (keysPath lbl) then .error (.other "connection failure")
  else match lookupKey sv lbl with
  | none => .ok (setKey sv lbl
      { ktype := vtype, exportable := true, deletionAllowed := false
      , versions := [(1, o.genMaterial lbl vtype)] })
  | some k => if k.ktype == vtype then .ok sv
              else .error (.other ("key already exists with type " ++ k.ktype))

/-- Transit key-read endpoint (spec section 6, external service): the
metadata of the named key, with its versioned public keys. -/
def svReadKeys (sv : VaultServer) (lbl : String) : Except Err VaultKey :=
  if pathDown sv (keysPath lbl) then .error (.other "connection failure")
  else match lookupKey sv lbl with
  | some k => .ok k
  | none => .error (.notFound ("no existing key named " ++ lbl))

/-- Transit sign endpoint (spec section 6, external service): signing with a
missing key is a not-found failure. -/
def svSign (o : VaultOracle) (sv : VaultServer) (lbl input : String) : Except Err String :=
  if pathDown sv (signPath lbl) then .error (.other "connection failure")
  else match lookupKey sv lbl with
  | some k => .ok (o.transitSign k input)
  | none => .error (.notFound ("encryption key not found: " ++ lbl))

/-- Transit verify endpoint (spec section 6, external service). -/
def svVerify (o : VaultOracle) (sv : VaultServer) (lbl input signature : String) :
    Except Err Bool :=
  if pathDown sv (verifyPath lbl) then .error (.other "connection failure")
  else match lookupKey sv lbl with
  | some k => o.transitVerify k input signature
  | none => .error (.notFound ("encryption key not found: " ++ lbl))

/-- Transit key-configuration endpoint (spec section 6, external service):
sets the deletion-allowed flag of an existing key. -/
def svWriteConfig (sv : VaultServer) (lbl : String) (allowed : Bool) :
    Except Err VaultServer :=
  if pathDown sv (configPath lbl) then .error (.other "connection failure")
  else match lookupKey sv lbl with
  | some k => .ok (setKey sv lbl { k with deletionAllowed := allowed })
  | none => .error (.notFound ("no existing key named " ++ lbl))

/-- Transit key-delete endpoint (spec section 6, external service): deletion
succeeds only for keys whose deletion-allowed flag is set. -/
def svDelete (sv : VaultServer) (lbl : String) : Except Err VaultServer :=
  if pathDown sv (keysPath lbl) then .error (.other "connection failure")
  else match lookupKey sv lbl with
  | some k => if k.deletionAllowed then .ok (removeKey sv lbl)
              else .error (.other "deletion is not allowed for this key")
  | none => .error (.notFound ("no existing key named " ++ lbl))

/-- Requests the Vault client issues on behalf of the adapter. -/
inductive VEvent where
  | health
  | write (path : String)
  | read (path : String)
  | del (path : String)
deriving DecidableEq

/-- Result of an operation on the Vault adapter: the value or thrown error,
the resulting remote state, the adapter initialized flag, and the client
requests issued. -/
structure VOut (α : Type) where
  result : Except Err α
  server : VaultServer
  initialized : Bool
  trace : List VEvent
deriving DecidableEq

/-- Message wrapped by the adapter when the health check fails. -/
def vaultHealthFailMsg : String := "connection refused"

/-- isInitialized of VigilHSMVault. -/
def vIsInitialized (ini : Bool) : Bool := ini

/-- Outcome of the implicit initialize at the top of each operation. -/
structure InitStep where
  ok : Bool
  initialized : Bool
  trace : List VEvent
deriving DecidableEq

/-- VigilHSMVault.initialize (src/src/IVigilHSM.ts lines 475-485): a no-op
when already initialized, otherwise a health check against the service. -/
def vInitStep (ini : Bool) (sv : VaultServer) : InitStep :=
  if ini then { ok := true, initialized := true, trace := [] }
  else if sv.healthy then { ok := true, initialized := true, trace := [.health] }
  else { ok := false, initialized := false, trace := [.health] }

/-- The thrown initialization failure shared by every operation. -/
def vInitFail (α : Type) (sv : VaultServer) : VOut α :=
  { result := .error (.other ("Failed to initialize Vault connection: " ++ vaultHealthFailMsg))
  , server := sv, initialized := false, trace := [.health] }

/-- VigilHSMVault.initialize as the caller sees it. -/
def vInitialize (ini : Bool) (sv : VaultServer) : VOut Unit :=
  let s := vInitStep ini sv
  if s.ok then
    { result := .ok (), server := sv, initialized := s.initialized, trace := s.trace }
  else vInitFail Unit sv

/-- Algorithm-to-key-type switch of VigilHSMVault.generateKeyPair
(src/src/IVigilHSM.ts lines 494-507); none models the default throw. -/
def vaultTypeOf (algorithm : String) : Option String :=
  if algorithm == "rsa" then some "rsa-2048"
  else if algorithm == "ecdsa" then some "ecdsa-p256"
  else if algorithm == "ed25519" then some "ed25519"
  else none

/-- Latest key version, as Math.max over the numeric metadata keys. -/
def maxVersion (vs : List (Nat × String)) : Nat :=
  vs.foldl (fun a p => max a p.1) 0

/-- VigilHSMVault.generateKeyPair (src/src/IVigilHSM.ts lines 491-537):
implicit initialize, the algorithm switch (throwing on anything outside rsa,
ecdsa and ed25519 before any request is issued), the key write, and the
read-back that selects the public material of the highest numbered version
and returns it hex encoded together with the timestamp-derived id.  Failures
of the two requests are wrapped as generation errors. -/
def vGenerateKeyPair (o : VaultOracle) (now : Nat) (ini : Bool) (sv : VaultServer)
    (keyLabel algorithm : String) : VOut KeyGenResult :=
  let s := vInitStep ini sv
  if s.ok then
    match vaultTypeOf algorithm with
    | none =>
      { result := .error (.other ("Unsupported algorithm: " ++ algorithm))
      , server := sv, initialized := s.initialized, trace := s.trace }
    | some vtype =>
      match svWriteKeys o sv keyLabel vtype with
      | .error e =>
        { result := .error (.other ("Failed to generate key pair in Vault: " ++ e.msg))
        , server := sv, initialized := s.initialized
        , trace := s.trace ++ [.write (keysPath keyLabel)] }
      | .ok sv1 =>
        let keyId := hexEncodeString (toString now)
        match svReadKeys sv1 keyLabel with
        | .error e =>
          { result := .error (.other ("Failed to generate key pair in Vault: " ++ e.msg))
          , server := sv1, initialized := s.initialized
          , trace := s.trace ++ [.write (keysPath keyLabel), .read (keysPath keyLabel)] }
        | .ok k =>
          match (k.versions.find? (fun p => p.1 == maxVersion k.versions)).map Prod.snd with
          | none =>
            { result := .error (.other "Failed to generate key pair in Vault: no key versions")
            , server := sv1, initialized := s.initialized
            , trace := s.trace ++ [.write (keysPath keyLabel), .read (keysPath keyLabel)] }
          | some mat =>
            { result := .ok { publicKey := hexEncodeString mat, keyId := keyId }
            , server := sv1, initialized := s.initialized
            , trace := s.trace ++ [.write (keysPath keyLabel), .read (keysPath keyLabel)] }
  else vInitFail KeyGenResult sv

/-- VigilHSMVault.sign (src/src/IVigilHSM.ts lines 539-555): implicit
initialize, base64 transport encoding, the sign request; a request failure
is wrapped and rethrown as a signing error. -/
def vSign (o : VaultOracle) (ini : Bool) (sv : VaultServer)
    (keyLabel payload : String) : VOut String :=
  let s := vInitStep ini sv
  if s.ok then
    let input := base64Encode payload
    match svSign o sv keyLabel input with
    | .ok sig =>
      { result := .ok sig, server := sv, initialized := s.initialized
      , trace := s.trace ++ [.write (signPath keyLabel)] }
    | .error e =>
      { result := .error (.other ("Failed to sign with Vault: " ++ e.msg))
      , server := sv, initialized := s.initialized
      , trace := s.trace ++ [.write (signPath keyLabel)] }
  else vInitFail String sv

/-- VigilHSMVault.verify (src/src/IVigilHSM.ts lines 557-572): the implicit
initialize sits outside the try block and propagates its failure, every
failure of the verify request itself is caught and collapsed to false. -/
def vVerify (o : VaultOracle) (ini : Bool) (sv : VaultServer)
    (keyLabel payload signature : String) : VOut Bool :=
  let s := vInitStep ini sv
  if s.ok then
    let input := base64Encode payload
    match svVerify o sv keyLabel input signature with
    | .ok b =>
      { result := .ok b, server := sv, initialized := s.initialized
      , trace := s.trace ++ [.write (verifyPath keyLabel)] }
    | .error _ =>
      { result := .ok false, server := sv, initialized := s.initialized
      , trace := s.trace ++ [.write (verifyPath keyLabel)] }
  else vInitFail Bool sv

/-- VigilHSMVault.deleteKeyPair (src/src/IVigilHSM.ts lines 574-587):
implicit initialize, then the deletion-allowed configuration write followed
by the delete request; a failure of the first request skips the second, a
failure of either is wrapped and rethrown as a deletion error. -/
def vDeleteKeyPair (ini : Bool) (sv : VaultServer) (keyLabel : String) : VOut Unit :=
  let s := vInitStep ini sv
  if s.ok then
    match svWriteConfig sv keyLabel true with
    | .error e =>
      { result := .error (.other ("Failed to delete key pair in Vault: " ++ e.msg))
      , server := sv, initialized := s.initialized
      , trace := s.trace ++ [.write (configPath keyLabel)] }
    | .ok sv1 =>
      match svDelete sv1 keyLabel with
      | .error e =>
        { result := .error (.other ("Failed to delete key pair in Vault: " ++ e.msg))
        , server := sv1, initialized := s.initialized
        , trace := s.trace ++ [.write (configPath keyLabel), .del (keysPath keyLabel)] }
      | .ok sv2 =>
        { result := .ok (), server := sv2, initialized := s.initialized
        , trace := s.trace ++ [.write (configPath keyLabel), .del (keysPath keyLabel)] }
  else vInitFail Unit sv

/-- VigilHSMVault.close (src/src/IVigilHSM.ts lines 589-592): a pure state
reset, no request is issued and nothing can fail. -/
def vClose (_ini : Bool) (sv : VaultServer) : VOut Unit :=
  { result := .ok (), server := sv, initialized := false, trace := [] }

/-! ## Concrete example states and oracles for the closed instances -/

/-- Example slot list: one present token with a padded label, one empty slot. -/
def exSlots : List GSlot :=
  [ { tokenPresent := true, tokenLabel := " vigil-token ", pin := "1234" }
  , { tokenPresent := false, tokenLabel := "dead", pin := "0000" } ]

/-- Example configuration selecting the token by label. -/
def exConfig : PKCS11Config :=
  { tokenLabel := some "vigil-token", slot := none, pin := "1234" }

/-- Fresh adapter state. -/
def exUninit : P11State :=
  { initialized := false, session := none, moduleLoaded := false }

/-- Adapter state after a successful initialization on the example slot. -/
def exInit : P11State :=
  { initialized := true
  , session := some { tokenPresent := true, tokenLabel := " vigil-token ", pin := "1234" }
  , moduleLoaded := true }

/-- Example object store holding one unrelated key pair. -/
def exStore : ObjectStore :=
  [ { isPrivate := false, label := "other", id := "01", keyType := "RSA", material := "M" }
  , { isPrivate := true, label := "other", id := "01", keyType := "RSA", material := "" } ]

/-- Example PKCS#11 crypto primitives. -/
def exP11Oracle : P11Oracle :=
  { signBytes := fun _ _ _ => "S"
  , verifyOnce := fun _ _ _ _ => .ok true
  , rsaModulus := fun _ _ => "M" }

/-- Example transit key with three versions, the highest numbered in the
middle of the metadata list. -/
def exVaultKey : VaultKey :=
  { ktype := "ed25519", exportable := true, deletionAllowed := false
  , versions := [(1, "A"), (3, "C"), (2, "B")] }

/-- Example healthy transit server holding one key. -/
def exServer : VaultServer :=
  { healthy := true, keys := [("mykey", exVaultKey)], downPaths := [] }

/-- Example transit primitives. -/
def exVaultOracle : VaultOracle :=
  { genMaterial := fun _ _ => "G"
  , transitSign := fun _ input => "vault:v1:" ++ input
  , transitVerify := fun _ _ _ => .ok false }

/-! ## Helper lemmas -/

theorem find?_on_filter {α : Type} (l : List α) (p q : α → Bool) :
    (l.filter p).find? q = l.find? (fun a => p a && q a) := by
  rw [List.find?_filter]; congr 1; funext a; simp [Bool.and_comm]

theorem filter_not_filter {α : Type} (l : List α) (p : α → Bool) :
    (l.filter (fun a => !(p a))).filter p = [] := by
  induction l with
  | nil => rfl
  | cons a t ih => by_cases h : p a <;> simp [List.filter_cons, h, ih]

theorem filter_filter_nil {α : Type} (l : List α) (p q : α → Bool)
    (h : l.filter p = []) : (l.filter q).filter p = [] := by
  induction l with
  | nil => rfl
  | cons a t ih =>
    rw [List.filter_cons] at h ⊢
    by_cases hp : p a
    · rw [if_pos hp] at h; simp at h
    · rw [if_neg hp] at h
      by_cases hq : q a
      · rw [if_pos hq, List.filter_cons, if_neg hp]
        exact ih h
      · rw [if_neg hq]
        exact ih h

theorem filter_not_eq_self {α : Type} (l : List α) (p : α → Bool)
    (h : l.filter p = []) : l.filter (fun a => !(p a)) = l := by
  induction l with
  | nil => rfl
  | cons a t ih =>
    rw [List.filter_cons] at h ⊢
    by_cases hp : p a
    · rw [if_pos hp] at h; simp at h
    · rw [if_neg hp] at h
      have hp2 : (!(p a)) = true := by
        simp only [Bool.not_eq_true']
        exact Bool.not_eq_true (p a) |>.mp hp
      rw [if_pos hp2, ih h]

theorem le_foldl_max (l : List Nat) (a : Nat) : a ≤ l.foldl max a := by
  induction l generalizing a with
  | nil => exact Nat.le_refl a
  | cons x t ih =>
    rw [List.foldl_cons]
    exact Nat.le_trans (Nat.le_max_left a x) (ih (max a x))

theorem mem_le_foldl_max (l : List Nat) : ∀ a x, x ∈ l → x ≤ l.foldl max a := by
  induction l with
  | nil => intro a x hx; cases hx
  | cons y t ih =>
    intro a x hx
    rw [List.foldl_cons]
    rcases List.mem_cons.mp hx with h | h
    · subst h; exact Nat.le_trans (Nat.le_max_right a x) (le_foldl_max t _)
    · exact ih _ x h

theorem foldl_max_le (l : List Nat) : ∀ a v, a ≤ v → (∀ x ∈ l, x ≤ v) →
    l.foldl max a ≤ v := by
  induction l with
  | nil => intro a v ha _; simpa using ha
  | cons y t ih =>
    intro a v ha h
    rw [List.foldl_cons]
    exact ih (max a y) v (Nat.max_le.mpr ⟨ha, h y (List.mem_cons_self y t)⟩)
      (fun x hx => h x (List.mem_cons_of_mem y hx))

theorem maxVersion_eq {vs : List (Nat × String)} {v : Nat} {m : String}
    (hmem : (v, m) ∈ vs) (hub : ∀ p ∈ vs, p.1 ≤ v) : maxVersion vs = v := by
  unfold maxVersion
  rw [show vs.foldl (fun a p => max a p.1) 0 = (vs.map Prod.fst).foldl max 0 by
    rw [List.foldl_map]]
  apply Nat.le_antisymm
  · exact foldl_max_le _ 0 v (Nat.zero_le v) (fun x hx => by
      rcases List.mem_map.mp hx with ⟨p, hp, rfl⟩; exact hub p hp)
  · exact mem_le_foldl_max _ 0 v (List.mem_map.mpr ⟨(v, m), hmem, rfl⟩)

theorem lookupKey_removeKey (sv : VaultServer) (lbl : String) :
    lookupKey (removeKey sv lbl) lbl = none := by
  show ((sv.keys.filter (fun p => !(p.1 == lbl))).find? (fun p => p.1 == lbl)).map Prod.snd = none
  rw [find?_on_filter]
  rw [show (sv.keys.find? (fun p => (!(p.1 == lbl)) && (p.1 == lbl))) = none by
    rw [List.find?_eq_none]
    intro p _
    by_cases h : p.1 == lbl <;> simp [h]]
  rfl

theorem findObjects_destroy_same (store : ObjectStore) (priv : Bool) (lbl : String) :
    findObjects (destroyObjects store priv lbl) priv lbl = [] :=
  filter_not_filter store _

theorem destroy_of_noMatch (store : ObjectStore) (priv : Bool) (lbl : String)
    (h : findObjects store priv lbl = []) : destroyObjects store priv lbl = store :=
  filter_not_eq_self store _ h

theorem pDelete_noMatch (store : ObjectStore) (lbl : String)
    (h1 : findObjects store true lbl = []) (h2 : findObjects store false lbl = []) :
    pDeleteKeyPair store lbl = { result := .ok (), store := store, trace := [] } := by
  simp only [pDeleteKeyPair]
  rw [destroy_of_noMatch store true lbl h1, h1, destroy_of_noMatch store false lbl h2, h2]
  rfl

theorem pDelete_store_no_private (store : ObjectStore) (lbl : String) :
    findObjects (pDeleteKeyPair store lbl).store true lbl = [] := by
  show ((store.filter (fun ob => !(ob.isPrivate == true && ob.label == lbl))).filter
      (fun ob => !(ob.isPrivate == false && ob.label == lbl))).filter
      (fun ob => ob.isPrivate == true && ob.label == lbl) = []
  exact filter_filter_nil _ _ _ (filter_not_filter store _)

theorem pDelete_store_no_public (store : ObjectStore) (lbl : String) :
    findObjects (pDeleteKeyPair store lbl).store false lbl = [] := by
  show ((store.filter (fun ob => !(ob.isPrivate == true && ob.label == lbl))).filter
      (fun ob => !(ob.isPrivate == false && ob.label == lbl))).filter
      (fun ob => ob.isPrivate == false && ob.label == lbl) = []
  exact filter_not_filter _ _

theorem svDelete_ok (sv1 sv2 : VaultServer) (lbl : String)
    (hd : svDelete sv1 lbl = .ok sv2) : sv2 = removeKey sv1 lbl := by
  unfold svDelete at hd
  by_cases hp : pathDown sv1 (keysPath lbl)
  · rw [if_pos hp] at hd; cases hd
  · rw [if_neg hp] at hd
    cases hl : lookupKey sv1 lbl with
    | none => simp [hl] at hd
    | some k =>
      simp only [hl] at hd
      by_cases ha : k.deletionAllowed
      · simp [ha] at hd; exact hd.symm
      · simp [ha] at hd

theorem vDelete_ok_inv (ini : Bool) (sv : VaultServer) (lbl : String)
    (h : (vDeleteKeyPair ini sv lbl).result = .ok ()) :
    (vDeleteKeyPair ini sv lbl).initialized = true ∧
    lookupKey (vDeleteKeyPair ini sv lbl).server lbl = none := by
  by_cases hi : ini
  · cases hw : svWriteConfig sv lbl true with
    | error e => exfalso; simp [vDeleteKeyPair, vInitStep, hi, hw] at h
    | ok sv1 =>
      cases hd : svDelete sv1 lbl with
      | error e => exfalso; simp [vDeleteKeyPair, vInitStep, hi, hw, hd] at h
      | ok sv2 =>
        refine ⟨by simp [vDeleteKeyPair, vInitStep, hi, hw, hd], ?_⟩
        have h2 := svDelete_ok sv1 sv2 lbl hd
        rw [show (vDeleteKeyPair ini sv lbl).server = sv2 by
          simp [vDeleteKeyPair, vInitStep, hi, hw, hd]]
        rw [h2]
        exact lookupKey_removeKey sv1 lbl
  · by_cases hh : sv.healthy
    · cases hw : svWriteConfig sv lbl true with
      | error e => exfalso; simp [vDeleteKeyPair, vInitStep, hi, hh, hw] at h
      | ok sv1 =>
        cases hd : svDelete sv1 lbl with
        | error e => exfalso; simp [vDeleteKeyPair, vInitStep, hi, hh, hw, hd] at h
        | ok sv2 =>
          refine ⟨by simp [vDeleteKeyPair, vInitStep, hi, hh, hw, hd], ?_⟩
          have h2 := svDelete_ok sv1 sv2 lbl hd
          rw [show (vDeleteKeyPair ini sv lbl).server = sv2 by
            simp [vDeleteKeyPair, vInitStep, hi, hh, hw, hd]]
          rw [h2]
          exact lookupKey_removeKey sv1 lbl
    · exfalso; simp [vDeleteKeyPair, vInitStep, vInitFail, hi, hh] at h

theorem vSign_missing (o : VaultOracle) (sv : VaultServer) (lbl payload : String)
    (hp : pathDown sv (signPath lbl) = false) (hk : lookupKey sv lbl = none) :
    vSign o true sv lbl payload =
      { result := .error (.other
          ("Failed to sign with Vault: " ++ ("encryption key not found: " ++ lbl)))
      , server := sv, initialized := true, trace := [.write (signPath lbl)] } := by
  simp [vSign, vInitStep, svSign, hp, hk, Err.msg]

/-! ## Claim theorems -/

/-- Claim C4: on both backends initialize is idempotent: calling it on an
already-initialized adapter returns immediately, performs no driver or
client interaction and leaves the adapter state unchanged, so two
consecutive initialize calls establish at most one connection or session. -/
theorem initialize_idempotent_both_backends :
    (∀ cfg slots st, st.initialized = true →
       pInitialize cfg slots st = { result := .ok (), state := st, trace := [] }) ∧
    (∀ cfg slots st, (pInitialize cfg slots st).result = .ok () →
       pInitialize cfg slots (pInitialize cfg slots st).state =
         { result := .ok (), state := (pInitialize cfg slots st).state, trace := [] }) ∧
    (∀ sv, vInitialize true sv =
       { result := .ok (), server := sv, initialized := true, trace := [] }) ∧
    (∀ ini sv, (vInitialize ini sv).result = .ok () →
       vInitialize (vInitialize ini sv).initialized (vInitialize ini sv).server =
         { result := .ok (), server := (vInitialize ini sv).server
         , initialized := true, trace := [] }) := by
  refine ⟨?_, ?_, ?_, ?_⟩
  · intro cfg slots st h
    simp [pInitialize, h]
  · intro cfg slots st h
    by_cases hi : st.initialized
    · simp [pInitialize, hi]
    · cases hr : resolveSlot cfg slots with
      | error e => simp [pInitialize, hi, hr] at h
      | ok s =>
        by_cases hp : cfg.pin == s.pin
        · simp [pInitialize, hi, hr, hp]
        · simp [pInitialize, hi, hr, hp] at h
  · intro sv
    simp [vInitialize, vInitStep]
  · intro ini sv h
    by_cases hi : ini
    · simp [vInitialize, vInitStep, hi]
    · by_cases hh : sv.healthy
      · simp [vInitialize, vInitStep, hi, hh]
      · simp [vInitialize, vInitStep, vInitFail, hi, hh] at h

/-- Claim C5: close never raises on either backend, in any adapter state and
under any combination of teardown-step failures; it is safe to call twice in
a row and without a prior initialize, its result and resulting state do not
depend on which teardown steps failed, and afterwards isInitialized is
false. -/
theorem close_always_safe_both_backends :
    (∀ fl st, (pClose fl st).result = .ok () ∧
       pIsInitialized (pClose fl st).state = false ∧
       (pClose fl st).state =
         { initialized := false, session := none, moduleLoaded := false }) ∧
    (∀ fl fl2 st, pClose fl2 ((pClose fl st).state) =
       { result := .ok ()
       , state := { initialized := false, session := none, moduleLoaded := false }
       , trace := [] }) ∧
    (∀ fl fl2 st, (pClose fl st).result = (pClose fl2 st).result ∧
       (pClose fl st).state = (pClose fl2 st).state) ∧
    (∀ ini sv, vClose ini sv =
       { result := .ok (), server := sv, initialized := false, trace := [] } ∧
       vIsInitialized (vClose ini sv).initialized = false) := by
  refine ⟨?_, ?_, ?_, ?_⟩
  · intro fl st; exact ⟨rfl, rfl, rfl⟩
  · intro fl fl2 st; rfl
  · intro fl fl2 st; exact ⟨rfl, rfl⟩
  · intro ini sv; exact ⟨rfl, rfl⟩

/-- Claim C9: local-module deleteKeyPair called with a label matching no key
objects succeeds silently: its result is ok for every store, with no match
it destroys zero objects and leaves the store unchanged, and a second call
on the same label immediately after a first one is again a silent no-op. -/
theorem pkcs11_delete_missing_label_silent :
    (∀ store lbl, (pDeleteKeyPair store lbl).result = .ok ()) ∧
    (∀ store lbl, findObjects store true lbl = [] → findObjects store false lbl = [] →
       pDeleteKeyPair store lbl = { result := .ok (), store := store, trace := [] }) ∧
    (∀ store lbl, pDeleteKeyPair (pDeleteKeyPair store lbl).store lbl =
       { result := .ok (), store := (pDeleteKeyPair store lbl).store, trace := [] }) := by
  refine ⟨?_, ?_, ?_⟩
  · intro store lbl; rfl
  · intro store lbl h1 h2; exact pDelete_noMatch store lbl h1 h2
  · intro store lbl
    exact pDelete_noMatch _ lbl (pDelete_store_no_private store lbl)
      (pDelete_store_no_public store lbl)

/-- Witness for claim C4: initialize on the concrete already-initialized
adapter is a complete no-op. -/
theorem initialize_idempotent_witness :
    pInitialize exConfig exSlots exInit =
      { result := .ok (), state := exInit, trace := [] } :=
  initialize_idempotent_both_backends.1 exConfig exSlots exInit rfl

/-- Witness for claim C9: deleting a label absent from a concrete store is a
silent no-op. -/
theorem pkcs11_delete_missing_label_witness :
    pDeleteKeyPair exStore "ghost" = { result := .ok (), store := exStore, trace := [] } :=
  pkcs11_delete_missing_label_silent.2.1 exStore "ghost" rfl rfl

/-- Claim C6: initialize of the local-module adapter resolves the slot in
this priority order: a configured (truthy) token label selects the first
slot with a present token whose trimmed label matches, failing with the
not-found error when none matches; otherwise a configured numeric index
selects that slot of the present-token list, failing with the not-found
error when the index matches nothing; otherwise the first present-token
slot is used, failing when no slot with a present token exists. -/
theorem pkcs11_slot_resolution_order :
    ∀ cfg slots,
      (∀ lbl, cfg.tokenLabel = some lbl → lbl ≠ "" →
        resolveSlot cfg slots =
          match slots.find? (fun s => s.tokenPresent && s.tokenLabel.trim == lbl) with
          | some s => .ok s
          | none => .error (.notFound ("Token with label " ++ lbl ++ " not found"))) ∧
      (cfg.tokenLabel = none ∨ cfg.tokenLabel = some "" → ∀ i, cfg.slot = some i →
        resolveSlot cfg slots =
          match (slots.filter (fun s => s.tokenPresent))[i]? with
          | some s => .ok s
          | none => .error (.notFound ("Slot " ++ toString i ++ " not found"))) ∧
      (cfg.tokenLabel = none ∨ cfg.tokenLabel = some "" → cfg.slot = none →
        resolveSlot cfg slots =
          match slots.find? (fun s => s.tokenPresent) with
          | some s => .ok s
          | none => .error (.notFound "No PKCS#11 slots available")) := by
  intro cfg slots
  refine ⟨?_, ?_, ?_⟩
  · intro lbl hl hne
    have hb : (lbl != "") = true := bne_iff_ne.mpr hne
    simp only [resolveSlot, hl, hb, if_pos]
    rw [find?_on_filter]
  · intro htl i hs
    rcases htl with htl | htl <;>
      simp only [resolveSlot, resolveSlotNoLabel, htl, hs, bne_self_eq_false, if_neg,
        Bool.false_eq_true, not_false_eq_true]
  · intro htl hs
    have key : resolveSlotNoLabel cfg.slot (slots.filter (fun s => s.tokenPresent)) =
        match slots.find? (fun s => s.tokenPresent) with
        | some s => .ok s
        | none => .error (.notFound "No PKCS#11 slots available") := by
      rw [hs]
      rw [← List.filter_head? (fun s => s.tokenPresent) slots]
      cases hfp : slots.filter (fun s => s.tokenPresent) with
      | nil => rfl
      | cons s t => rfl
    rcases htl with htl | htl <;>
      simp only [resolveSlot, htl, bne_self_eq_false, Bool.false_eq_true, not_false_eq_true,
        if_neg] <;> exact key

/-- Witness for claim C6: the configured label resolves against the first
matching present-token slot of the concrete slot list. -/
theorem pkcs11_slot_resolution_witness :
    resolveSlot exConfig exSlots =
      match exSlots.find? (fun s => s.tokenPresent && s.tokenLabel.trim == "vigil-token") with
      | some s => .ok s
      | none => .error (.notFound ("Token with label " ++ "vigil-token" ++ " not found")) :=
  (pkcs11_slot_resolution_order exConfig exSlots).1 "vigil-token" rfl (by decide)

/-- Claim C3: after a deleteKeyPair on a label succeeds, an immediately
following sign on the same label fails with the not-found condition instead
of returning a signature, on both backends: the local adapter throws its
private-key not-found error, the remote adapter rethrows the transit
not-found failure wrapped as its signing error. -/
theorem delete_then_sign_fails_not_found :
    (∀ o store lbl payload alg,
       pSign o (pDeleteKeyPair store lbl).store lbl payload alg =
         { result := .error (.notFound ("Private key " ++ lbl ++ " not found"))
         , store := (pDeleteKeyPair store lbl).store, trace := [] }) ∧
    (∀ o ini sv lbl payload,
       (vDeleteKeyPair ini sv lbl).result = .ok () →
       pathDown (vDeleteKeyPair ini sv lbl).server (signPath lbl) = false →
       vSign o (vDeleteKeyPair ini sv lbl).initialized (vDeleteKeyPair ini sv lbl).server
           lbl payload =
         { result := .error (.other
             ("Failed to sign with Vault: " ++ ("encryption key not found: " ++ lbl)))
         , server := (vDeleteKeyPair ini sv lbl).server
         , initialized := true
         , trace := [.write (signPath lbl)] }) := by
  constructor
  · intro o store lbl payload alg
    simp only [pSign, pSignRSA, findPrivateKey, pDelete_store_no_private store lbl]
  · intro o ini sv lbl payload h hp
    obtain ⟨hini, hnone⟩ := vDelete_ok_inv ini sv lbl h
    rw [hini]
    exact vSign_missing o _ lbl payload hp hnone

/-- Witness for claim C3: deleting the concrete key and then signing with
its label fails with the wrapped not-found error. -/
theorem delete_then_sign_fails_witness :
    vSign exVaultOracle (vDeleteKeyPair true exServer "mykey").initialized
        (vDeleteKeyPair true exServer "mykey").server "mykey" "data" =
      { result := .error (.other
          ("Failed to sign with Vault: " ++ ("encryption key not found: " ++ "mykey")))
      , server := (vDeleteKeyPair true exServer "mykey").server
      , initialized := true
      , trace := [.write (signPath "mykey")] } :=
  delete_then_sign_fails_not_found.2 exVaultOracle true exServer "mykey" "data" rfl rfl

/-- Claim C8: remote-transit deleteKeyPair issues the deletion-allowed
configuration write first and the delete second: a successful call on an
initialized adapter issues exactly those two requests in that order; when
the configuration write fails the delete is never attempted and the failure
is rethrown as the deletion error; when the delete fails its failure is
likewise rethrown as the deletion error. -/
theorem vault_delete_two_step_discipline :
    (∀ sv lbl, (vDeleteKeyPair true sv lbl).result = .ok () →
       (vDeleteKeyPair true sv lbl).trace =
         [.write (configPath lbl), .del (keysPath lbl)]) ∧
    (∀ sv lbl e, svWriteConfig sv lbl true = .error e →
       vDeleteKeyPair true sv lbl =
         { result := .error (.other ("Failed to delete key pair in Vault: " ++ e.msg))
         , server := sv, initialized := true, trace := [.write (configPath lbl)] }) ∧
    (∀ sv sv1 lbl e, svWriteConfig sv lbl true = .ok sv1 → svDelete sv1 lbl = .error e →
       vDeleteKeyPair true sv lbl =
         { result := .error (.other ("Failed to delete key pair in Vault: " ++ e.msg))
         , server := sv1, initialized := true
         , trace := [.write (configPath lbl), .del (keysPath lbl)] }) := by
  refine ⟨?_, ?_, ?_⟩
  · intro sv lbl h
    cases hw : svWriteConfig sv lbl true with
    | error e => exfalso; simp [vDeleteKeyPair, vInitStep, hw] at h
    | ok sv1 =>
      cases hd : svDelete sv1 lbl with
      | error e => exfalso; simp [vDeleteKeyPair, vInitStep, hw, hd] at h
      | ok sv2 => simp [vDeleteKeyPair, vInitStep, hw, hd]
  · intro sv lbl e hw
    simp [vDeleteKeyPair, vInitStep, hw]
  · intro sv sv1 lbl e hw hd
    simp [vDeleteKeyPair, vInitStep, hw, hd]

/-- Witness for claim C8: the concrete successful deletion issues exactly
the configuration write followed by the delete. -/
theorem vault_delete_two_step_witness :
    (vDeleteKeyPair true exServer "mykey").trace =
      [.write (configPath "mykey"), .del (keysPath "mykey")] :=
  vault_delete_two_step_discipline.1 exServer "mykey" rfl

/-- Claim C7: a successful remote-transit generateKeyPair returns the public
material of the highest-numbered key version present in the metadata: on an
initialized adapter with a reachable key endpoint and an existing key of the
requested type, the result carries the hex encoding of the material stored
under the maximal version number. -/
theorem vault_generate_latest_version :
    ∀ o now sv lbl alg k v m,
      pathDown sv (keysPath lbl) = false →
      lookupKey sv lbl = some k →
      vaultTypeOf alg = some k.ktype →
      (v, m) ∈ k.versions →
      (∀ p ∈ k.versions, p.1 ≤ v) →
      (∀ p ∈ k.versions, p.1 = v → p.2 = m) →
      (vGenerateKeyPair o now true sv lbl alg).result =
        .ok { publicKey := hexEncodeString m, keyId := hexEncodeString (toString now) } := by
  intro o now sv lbl alg k v m hp hk ht hmem hub huniq
  have hmax : maxVersion k.versions = v := maxVersion_eq hmem hub
  obtain ⟨q, hq⟩ : ∃ q, k.versions.find? (fun p => p.1 == maxVersion k.versions) = some q := by
    rw [hmax]
    have hs : (k.versions.find? (fun p => p.1 == v)).isSome := by
      rw [List.find?_isSome]
      exact ⟨(v, m), hmem, by simp⟩
    exact Option.isSome_iff_exists.mp hs
  have hqmem : q ∈ k.versions := List.mem_of_find?_eq_some hq
  have hqv : q.1 = v := by
    have h2 := List.find?_some hq
    rw [hmax] at h2
    exact eq_of_beq h2
  have hqm : q.2 = m := huniq q hqmem hqv
  simp [vGenerateKeyPair, vInitStep, svWriteKeys, svReadKeys, hp, hk, ht, hq, hqm]

/-- Witness for claim C7: on the concrete server whose key has versions 1, 3
and 2, generateKeyPair returns the hex encoding of the version 3 material. -/
theorem vault_generate_latest_version_witness :
    (vGenerateKeyPair exVaultOracle 5 true exServer "mykey" "ed25519").result =
      .ok { publicKey := hexEncodeString "C", keyId := hexEncodeString "5" } :=
  vault_generate_latest_version exVaultOracle 5 exServer "mykey" "ed25519" exVaultKey 3 "C"
    rfl rfl rfl (by decide) (by decide) (by decide)

/-- Claim C1 counterexample: on the remote-transit adapter, verify with a
label whose key cannot be located returns false instead of raising an
error: with the healthy concrete server holding no key under the label, the
adapter collapses the not-found failure of the verify request into an ok
false verdict. -/
theorem vault_verify_missing_key_returns_false :
    lookupKey exServer "ghost" = none ∧
    (vVerify exVaultOracle true exServer "ghost" "payload" "sig").result = .ok false :=
  ⟨rfl, rfl⟩

/-- Claim C1 amended: the local-module adapter raises its not-found error
when the labeled public key cannot be located and otherwise returns a
verdict without raising, collapsing a throwing verification call (malformed
or mismatched signature) into false; the remote-transit adapter never
raises once initialization succeeded and returns false for every failing
verify request, including the one caused by a key that cannot be located. -/
theorem verify_error_discipline :
    (∀ o store lbl payload sig alg, findObjects store false lbl = [] →
       (pVerify o store lbl payload sig alg).result =
         .error (.notFound ("Public key " ++ lbl ++ " not found"))) ∧
    (∀ o store lbl payload sig alg k ks, findObjects store false lbl = k :: ks →
       ((o.verifyOnce "SHA256_RSA_PKCS" k.id payload sig = .error () →
           (pVerify o store lbl payload sig alg).result = .ok false) ∧
        (∀ b, o.verifyOnce "SHA256_RSA_PKCS" k.id payload sig = .ok b →
           (pVerify o store lbl payload sig alg).result = .ok b))) ∧
    (∀ o sv lbl payload sig, ∃ b, (vVerify o true sv lbl payload sig).result = .ok b) ∧
    (∀ o sv lbl payload sig, lookupKey sv lbl = none →
       (vVerify o true sv lbl payload sig).result = .ok false) := by
  refine ⟨?_, ?_, ?_, ?_⟩
  · intro o store lbl payload sig alg h
    simp [pVerify, pVerifyRSA, findPublicKey, h]
  · intro o store lbl payload sig alg k ks h
    constructor
    · intro hv
      simp [pVerify, pVerifyRSA, findPublicKey, h, hv]
    · intro b hv
      simp [pVerify, pVerifyRSA, findPublicKey, h, hv]
  · intro o sv lbl payload sig
    cases hv : svVerify o sv lbl (base64Encode payload) sig with
    | ok b => exact ⟨b, by simp [vVerify, vInitStep, hv]⟩
    | error e => exact ⟨false, by simp [vVerify, vInitStep, hv]⟩
  · intro o sv lbl payload sig hk
    by_cases hp : pathDown sv (verifyPath lbl)
    · simp [vVerify, vInitStep, svVerify, hp]
    · simp [vVerify, vInitStep, svVerify, hp, hk]

/-- Witness for the amended claim C1: verify on a concrete store without the
labeled public key raises the not-found error on the local adapter. -/
theorem verify_error_discipline_witness :
    (pVerify exP11Oracle exStore "nokey" "p" "s" "rsa").result =
      .error (.notFound ("Public key " ++ "nokey" ++ " not found")) :=
  verify_error_discipline.1 exP11Oracle exStore "nokey" "p" "s" "rsa" rfl

/-- Claim C2 counterexample: the local-module adapter accepts an ed25519
generation request without any error and silently generates an RSA key
pair: generateKeyPair succeeds and every object it created has key type
RSA, so the unsupported algorithm does not yield a distinguishable
failure. -/
theorem pkcs11_generate_silent_rsa_fallback :
    (pGenerateKeyPair exP11Oracle 7 [] "k" "ed25519").result =
      .ok { publicKey := hexEncodeString "M", keyId := hexEncodeString "7" } ∧
    (pGenerateKeyPair exP11Oracle 7 [] "k" "ed25519").store.all
      (fun ob => ob.keyType == "RSA") = true :=
  ⟨rfl, rfl⟩

/-- Claim C2 amended: only the remote-transit adapter makes an unsupported
algorithm a distinguishable failure: on an initialized adapter, any
algorithm outside rsa, ecdsa and ed25519 is rejected with the
unsupported-algorithm error before any request is issued; the local-module
adapter discards the algorithm argument and unconditionally generates an
RSA key pair, so an unsupported algorithm there silently yields RSA keys
of a different algorithm than requested. -/
theorem unsupported_algorithm_discipline :
    (∀ o now sv lbl alg, vaultTypeOf alg = none →
       vGenerateKeyPair o now true sv lbl alg =
         { result := .error (.other ("Unsupported algorithm: " ++ alg))
         , server := sv, initialized := true, trace := [] }) ∧
    (∀ o now store lbl alg,
       pGenerateKeyPair o now store lbl alg = generateRSAKeyPair o now store lbl 2048) ∧
    (∀ o now store lbl alg,
       ((pGenerateKeyPair o now store lbl alg).store.drop store.length).all
         (fun ob => ob.keyType == "RSA") = true) := by
  refine ⟨?_, ?_, ?_⟩
  · intro o now sv lbl alg h
    simp [vGenerateKeyPair, vInitStep, h]
  · intro o now store lbl alg
    rfl
  · intro o now store lbl alg
    show ((store ++ _).drop store.length).all (fun ob => ob.keyType == "RSA") = true
    rw [List.drop_left]
    rfl

/-- Witness for the amended claim C2: a concrete unsupported value is
rejected by the remote-transit adapter with the distinguishable error and
no request. -/
theorem unsupported_algorithm_discipline_witness :
    vGenerateKeyPair exVaultOracle 0 true exServer "k" "dsa" =
      { result := .error (.other ("Unsupported algorithm: " ++ "dsa"))
      , server := exServer, initialized := true, trace := [] } :=
  unsupported_algorithm_discipline.1 exVaultOracle 0 exServer "k" "dsa" rfl

/-- Claim C10: for the local-module adapter the algorithm argument carried
by the contract interface has no effect on any operation: generateKeyPair,
sign and verify return identical results for any two algorithm values on
identical inputs; generateKeyPair always runs the RSA key-generation
mechanism; and every signing or verification interaction uses the
SHA256_RSA_PKCS mechanism. -/
theorem pkcs11_algorithm_irrelevant :
    (∀ o now store lbl a1 a2,
       pGenerateKeyPair o now store lbl a1 = pGenerateKeyPair o now store lbl a2) ∧
    (∀ o store lbl payload a1 a2,
       pSign o store lbl payload a1 = pSign o store lbl payload a2) ∧
    (∀ o store lbl payload sig a1 a2,
       pVerify o store lbl payload sig a1 = pVerify o store lbl payload sig a2) ∧
    (∀ o now store lbl alg,
       (pGenerateKeyPair o now store lbl alg).trace = [.keyGen "RSA"]) ∧
    (∀ o store lbl payload alg,
       (pSign o store lbl payload alg).trace = [] ∨
       ∃ kid, (pSign o store lbl payload alg).trace = [.signOnce "SHA256_RSA_PKCS" kid]) ∧
    (∀ o store lbl payload sig alg,
       (pVerify o store lbl payload sig alg).trace = [] ∨
       ∃ kid, (pVerify o store lbl payload sig alg).trace =
         [.verifyOnce "SHA256_RSA_PKCS" kid]) := by
  refine ⟨?_, ?_, ?_, ?_, ?_, ?_⟩
  · intro o now store lbl a1 a2; rfl
  · intro o store lbl payload a1 a2; rfl
  · intro o store lbl payload sig a1 a2; rfl
  · intro o now store lbl alg; rfl
  · intro o store lbl payload alg
    cases hf : findPrivateKey store lbl with
    | error e => left; simp [pSign, pSignRSA, hf]
    | ok k => right; exact ⟨k.id, by simp [pSign, pSignRSA, hf]⟩
  · intro o store lbl payload sig alg
    cases hf : findPublicKey store lbl with
    | error e => left; simp [pVerify, pVerifyRSA, hf]
    | ok k =>
      right
      refine ⟨k.id, ?_⟩
      cases hv : o.verifyOnce "SHA256_RSA_PKCS" k.id payload sig with
      | ok b => simp [pVerify, pVerifyRSA, hf, hv]
      | error e => simp [pVerify, pVerifyRSA, hf, hv]

end Vigil
